import Mathlib

/-!
Shallow embedding of `bluedroid/bluetooth.c` (Android platform_system_bluetooth).

The C file drives a Bluetooth radio's power lifecycle:
  * two power-rail backends selected by `USE_UGLY_POWER_INTERFACE`
    (a direct sysfs control file, or rfkill-slot discovery),
  * `create_hci_sock` plus the `HCIDEVUP` / `HCIDEVDOWN` / `HCIGETDEVINFO`
    ioctls on a short-lived raw HCI socket,
  * `bt_enable`, `bt_disable`, `bt_is_enabled` orchestrating the above
    together with `property_set` calls that start/stop the `hciattach`
    and `hcid` daemons.

Each OS interaction (open/read/write/socket/ioctl/property_set) is an
oracle supplied through an environment record; the embedded functions
return, next to the C return value, a trace of the side effects the
claims talk about (how many sockets were created, how many ioctls were
issued, whether daemons were started, the updated rfkill globals).
-/

namespace Bluedroid

/-- `HCI_UP` is bit 0 of `hci_dev_info.flags`. -/
def HCI_UP : Nat := 0

/-- BlueZ `hci_test_bit nr addr` returns `word & (1 << (nr & 31))` on the
32-bit word holding bit `nr`; for `nr < 32` that is `flags &&& (1 <<< nr)`. -/
def hci_test_bit (nr : Nat) (flags : Nat) : Nat :=
  flags &&& (1 <<< (nr % 32))

/-! ## Direct-file power backend (`USE_UGLY_POWER_INTERFACE`) -/

/-- What the OS does when the direct backend opens and reads
`BLUETOOTH_POWER_PATH`: `readOpenOk = false` models `open` returning `-1`;
`readData` is the byte sequence a 1-byte `read` draws from (so the `read`
returns `min 1 readData.length` bytes). -/
structure FileReadEnv where
  readOpenOk : Bool
  readData : List Char
deriving DecidableEq, Repr

/-- What the OS does when the direct backend opens and writes
`BLUETOOTH_POWER_PATH`: `writeOpenOk = false` models `open` failing;
`writeRet` is the return value of `write(fd, &buffer, 1)`. -/
structure FileWriteEnv where
  writeOpenOk : Bool
  writeRet : Int
deriving DecidableEq, Repr

/-- `check_bluetooth_power` (direct-file variant): `-1` if the open fails,
`-1` if fewer than one byte is read, then `'Y' ↦ 1`, `'N' ↦ 0`,
any other byte `↦ -1`. -/
def check_bluetooth_power (e : FileReadEnv) : Int :=
  if ¬ e.readOpenOk then -1
  else
    match e.readData with
    | [] => -1
    | c :: _ => if c = 'Y' then 1 else if c = 'N' then 0 else -1

/-- `set_bluetooth_power` (direct-file variant): `-1` if the open fails,
`-1` if `write` does not return exactly `1`, else `0`.  The character
written is `'Y'` when `on`, `'N'` otherwise; it does not affect the
return value. -/
def set_bluetooth_power (pwr : Bool) (e : FileWriteEnv) : Int :=
  if ¬ e.writeOpenOk then -1
  else if e.writeRet ≠ 1 then -1
  else 0

/-! ## `bt_is_enabled` -/

/-- Result of `bt_is_enabled` together with the side effects the spec
talks about: `ret` is the C return value; `socks` counts calls to
`create_hci_sock`; `ioctls` counts `HCIGETDEVINFO` ioctls issued. -/
structure IsEnabledTrace where
  ret : Int
  socks : Nat
  ioctls : Nat
deriving DecidableEq, Repr

/-- Core of `bt_is_enabled`, parameterized by the power-check result
`power`, whether `create_hci_sock` succeeds (`sockOk`), and the outcome
of the `HCIGETDEVINFO` ioctl (`none` = ioctl fails, `some flags` = the
`hci_dev_info.flags` word it fills in).  Mirrors the C control flow:
power `-1`/`0` is returned as-is with no socket; then `ret = -1`; socket
failure returns `-1`; ioctl failure returns `0`; otherwise
`hci_test_bit(HCI_UP, &dev_info.flags)`. -/
def bt_is_enabled_core (power : Int) (sockOk : Bool) (devinfo : Option Nat) :
    IsEnabledTrace :=
  if power = -1 ∨ power = 0 then ⟨power, 0, 0⟩
  else if ¬ sockOk then ⟨-1, 1, 0⟩
  else
    match devinfo with
    | none => ⟨0, 1, 1⟩
    | some flags => ⟨(hci_test_bit HCI_UP flags : Nat), 1, 1⟩

/-- `bt_is_enabled` with the direct-file power backend. -/
def bt_is_enabled (e : FileReadEnv) (sockOk : Bool) (devinfo : Option Nat) :
    IsEnabledTrace :=
  bt_is_enabled_core (check_bluetooth_power e) sockOk devinfo

/-! ## `bt_enable` -/

/-- How the bring-up poll loop in `bt_enable` exits: `sockFail` when
`create_hci_sock` fails inside the loop (`goto out`), `success` when the
`HCIDEVUP` ioctl returns `0` (the `break`), `timeout` when `attempt`
reaches `0`. -/
inductive PollOutcome where
  | sockFail : PollOutcome
  | success : PollOutcome
  | timeout : PollOutcome
deriving DecidableEq, Repr

/-- Trace of the poll stage: outcome, number of `create_hci_sock` calls,
number of `HCIDEVUP` ioctls issued, number of `usleep(10000)` sleeps. -/
structure PollTrace where
  outcome : PollOutcome
  opens : Nat
  bringUps : Nat
  sleeps : Nat
deriving DecidableEq, Repr

/-- The `for (attempt = 1000; attempt > 0; attempt--)` loop of `bt_enable`.
`fuel` is the remaining value of `attempt`; `i` is the 0-based index of the
current attempt.  `sockOk i` tells whether `create_hci_sock` succeeds on
the `i`-th attempt, `upOk i` whether the `HCIDEVUP` ioctl returns `0`
there.  Each failed attempt closes the socket and sleeps 10 ms before the
next iteration. -/
def bt_enable_poll (sockOk upOk : Nat → Bool) : Nat → Nat → PollTrace
  | 0, _ => ⟨PollOutcome.timeout, 0, 0, 0⟩
  | fuel + 1, i =>
    if ¬ sockOk i then ⟨PollOutcome.sockFail, 1, 0, 0⟩
    else if upOk i then ⟨PollOutcome.success, 1, 1, 0⟩
    else
      let t := bt_enable_poll sockOk upOk fuel (i + 1)
      ⟨t.outcome, t.opens + 1, t.bringUps + 1, t.sleeps + 1⟩

/-- The OS oracle for `bt_enable`: the result of `set_bluetooth_power(1)`,
of `property_set("ctl.start", "hciattach")`, the per-attempt behaviour of
`create_hci_sock` and the `HCIDEVUP` ioctl, and the result of
`property_set("ctl.start", "hcid")`. -/
structure EnableEnv where
  setPowerRet : Int
  startAttachRet : Int
  sockOk : Nat → Bool
  upOk : Nat → Bool
  startMainRet : Int

/-- Result of `bt_enable` plus the side effects the claims mention:
`attachStarted` / `mainStarted` record whether the respective
`property_set("ctl.start", …)` call was issued (not whether it
succeeded); `poll` is `some` trace when the poll stage was reached. -/
structure EnableResult where
  ret : Int
  attachStarted : Bool
  poll : Option PollTrace
  mainStarted : Bool
deriving DecidableEq, Repr

/-- `bt_enable`: power on (abort if `< 0`), start `hciattach` (abort if
`< 0`), poll up to 1000 attempts (abort on socket failure or timeout),
start `hcid` (abort if `< 0`), `sleep(HCID_START_DELAY_SEC)`, return 0. -/
def bt_enable (e : EnableEnv) : EnableResult :=
  if e.setPowerRet < 0 then ⟨-1, false, none, false⟩
  else if e.startAttachRet < 0 then ⟨-1, true, none, false⟩
  else
    let t := bt_enable_poll e.sockOk e.upOk 1000 0
    if t.outcome = PollOutcome.success then
      if e.startMainRet < 0 then ⟨-1, true, some t, true⟩
      else ⟨0, true, some t, true⟩
    else ⟨-1, true, some t, false⟩

/-! ## `bt_disable` -/

/-- The OS oracle for `bt_disable`: the result of
`property_set("ctl.stop", "hcid")`, whether `create_hci_sock` succeeds,
the return value of the `HCIDEVDOWN` ioctl, the result of
`property_set("ctl.stop", "hciattach")`, and the result of
`set_bluetooth_power(0)`. -/
structure DisableEnv where
  stopMainRet : Int
  sockOk : Bool
  bringDownRet : Int
  stopAttachRet : Int
  setPowerRet : Int
deriving DecidableEq, Repr

/-- Result of `bt_disable` plus its side-effect trace: `socks` counts
`create_hci_sock` calls, `bringDownIssued` records whether the
`HCIDEVDOWN` ioctl was issued, `attachStopIssued` whether
`property_set("ctl.stop", "hciattach")` was called, `powerSetIssued`
whether `set_bluetooth_power(0)` was called. -/
structure DisableResult where
  ret : Int
  socks : Nat
  bringDownIssued : Bool
  attachStopIssued : Bool
  powerSetIssued : Bool
deriving DecidableEq, Repr

/-- `bt_disable`: stop `hcid` (abort if `< 0`), sleep, create an HCI
socket (abort if it fails), issue `HCIDEVDOWN` discarding its result,
stop `hciattach` (abort if `< 0`), power off (abort if `< 0`), return 0.
The `HCIDEVDOWN` return value `e.bringDownRet` is never inspected. -/
def bt_disable (e : DisableEnv) : DisableResult :=
  if e.stopMainRet < 0 then ⟨-1, 0, false, false, false⟩
  else if ¬ e.sockOk then ⟨-1, 1, false, false, false⟩
  else if e.stopAttachRet < 0 then ⟨-1, 1, true, true, false⟩
  else if e.setPowerRet < 0 then ⟨-1, 1, true, true, true⟩
  else ⟨0, 1, true, true, true⟩

/-! ## Rfkill power backend (`#else` branch)

The rfkill variant keeps two process-wide globals,
`static int rfkill_id = -1;` and `static char *rfkill_state_path = NULL;`,
lazily filled in by `init_rfkill`.  The filesystem is modelled as a
finite list of rfkill slots (`open` of `/sys/class/rfkill/rfkillN/type`
fails for `N` past the end, which is how the C scan loop terminates on a
real sysfs tree) together with a path-indexed oracle for the state files. -/

/-- The rfkill globals: `rfkill_id` (`-1` = unresolved) and
`rfkill_state_path` (`none` = `NULL`). -/
structure RfkillState where
  rfkill_id : Int
  rfkill_state_path : Option String
deriving DecidableEq, Repr

/-- The fresh process state: `rfkill_id = -1`, `rfkill_state_path = NULL`. -/
def rfkillFresh : RfkillState := ⟨-1, none⟩

/-- The OS oracle for the rfkill backend.  `slots` lists, per ascending
slot index, the outcome of opening and reading
`/sys/class/rfkill/rfkillN/type` (`none` = open fails, `some bytes` = the
bytes the `read` returns); indices past the end fail to open.
`stateRead p` is the outcome of opening and reading path `p` for the
power check; `stateWriteOpenOk p` and `stateWriteRet p` model the open
and the 1-byte `write` for the power set. -/
structure RfkillEnv where
  slots : List (Option (List Char))
  stateRead : String → Option (List Char)
  stateWriteOpenOk : String → Bool
  stateWriteRet : String → Int

/-- The path `asprintf` builds: `/sys/class/rfkill/rfkill%d/state`. -/
def rfkill_state_path_for (id : Nat) : String :=
  "/sys/class/rfkill/rfkill" ++ toString id ++ "/state"

/-- The scan loop of `init_rfkill` over the remaining slots, `id` being
the current slot index: an unopenable slot (or running out of slots)
aborts the scan with `none`; a slot whose type file yields at least 9
bytes starting with `"bluetooth"` is the match; otherwise continue with
the next index. -/
def init_rfkill_scan : List (Option (List Char)) → Nat → Option Nat
  | [], _ => none
  | none :: _, _ => none
  | some bytes :: rest, id =>
    if 9 ≤ bytes.length ∧ bytes.take 9 = "bluetooth".toList then some id
    else init_rfkill_scan rest (id + 1)

/-- `init_rfkill`: on a failed scan return `-1` leaving the globals
untouched; on a match set `rfkill_id` and build `rfkill_state_path`,
returning `0`. -/
def init_rfkill (env : RfkillEnv) (st : RfkillState) : Int × RfkillState :=
  match init_rfkill_scan env.slots 0 with
  | none => (-1, st)
  | some id => (0, ⟨(id : Int), some (rfkill_state_path_for id)⟩)

/-- The body of the rfkill `check_bluetooth_power` after the lazy init:
open `rfkill_state_path` (failure → `-1`), read one byte (short read →
`-1`), then `'1' ↦ 1`, `'0' ↦ 0`, other `↦ -1`. -/
def rfkill_check_body (env : RfkillEnv) (st : RfkillState) : Int :=
  match st.rfkill_state_path with
  | none => -1
  | some p =>
    match env.stateRead p with
    | none => -1
    | some [] => -1
    | some (c :: _) => if c = '1' then 1 else if c = '0' then 0 else -1

/-- The rfkill `check_bluetooth_power`: if `rfkill_id == -1` run
`init_rfkill` first (its failure → `-1`), then read the state file.
Returns the C result, the updated globals, and how many times
`init_rfkill` ran (the scan counter of the spec's fake enumerator). -/
def check_bluetooth_power_rfkill (env : RfkillEnv) (st : RfkillState) :
    Int × RfkillState × Nat :=
  if st.rfkill_id = -1 then
    let r := init_rfkill env st
    if r.fst ≠ 0 then (-1, r.snd, 1)
    else (rfkill_check_body env r.snd, r.snd, 1)
  else (rfkill_check_body env st, st, 0)

/-- The body of the rfkill `set_bluetooth_power` after the lazy init:
open `rfkill_state_path` for writing (failure → `-1`), write one byte;
only a negative `write` return is an error (`if (sz < 0)`), so `0` is
returned even on a short write. -/
def rfkill_set_body (env : RfkillEnv) (st : RfkillState) : Int :=
  match st.rfkill_state_path with
  | none => -1
  | some p =>
    if ¬ env.stateWriteOpenOk p then -1
    else if env.stateWriteRet p < 0 then -1
    else 0

/-- The rfkill `set_bluetooth_power`: lazy `init_rfkill` as in the check
(failure → `-1`), then write `'1'`/`'0'` to the state file.  Returns the
C result, the updated globals, and the number of `init_rfkill` runs. -/
def set_bluetooth_power_rfkill (pwr : Bool) (env : RfkillEnv)
    (st : RfkillState) : Int × RfkillState × Nat :=
  if st.rfkill_id = -1 then
    let r := init_rfkill env st
    if r.fst ≠ 0 then (-1, r.snd, 1)
    else (rfkill_set_body env r.snd, r.snd, 1)
  else (rfkill_set_body env st, st, 0)

/-- Result of the rfkill-backend `bt_is_enabled`: the C return value, the
updated rfkill globals, the `init_rfkill` run count, and the socket /
`HCIGETDEVINFO` counts. -/
structure RfkillIsEnabledResult where
  ret : Int
  st : RfkillState
  scans : Nat
  socks : Nat
  ioctls : Nat
deriving DecidableEq, Repr

/-- `bt_is_enabled` compiled against the rfkill power backend: the power
check (with its lazy init) followed by the same socket/ioctl logic as
`bt_is_enabled_core`; the socket and ioctl touch no rfkill state. -/
def bt_is_enabled_rfkill (env : RfkillEnv) (st : RfkillState)
    (sockOk : Bool) (devinfo : Option Nat) : RfkillIsEnabledResult :=
  let c := check_bluetooth_power_rfkill env st
  let t := bt_is_enabled_core c.fst sockOk devinfo
  ⟨t.ret, c.snd.fst, c.snd.snd, t.socks, t.ioctls⟩

/-- The direct-file power check only ever returns `-1`, `0` or `1`. -/
theorem check_bluetooth_power_mem (e : FileReadEnv) :
    check_bluetooth_power e = -1 ∨ check_bluetooth_power e = 0 ∨
      check_bluetooth_power e = 1 := by
  unfold check_bluetooth_power
  by_cases h : e.readOpenOk
  · simp [h]
    match e.readData with
    | [] => simp
    | c :: rest =>
      by_cases hy : c = 'Y' <;> by_cases hn : c = 'N' <;> simp [hy, hn]
  · simp [h]

/-- If every socket creation succeeds and no `HCIDEVUP` ioctl ever
succeeds, the poll loop runs its fuel to exhaustion: `fuel` opens,
`fuel` bring-up attempts, `fuel` sleeps, outcome `timeout`. -/
theorem bt_enable_poll_timeout (sockOk upOk : Nat → Bool)
    (hs : ∀ j, sockOk j = true) (hu : ∀ j, upOk j = false) :
    ∀ fuel i, bt_enable_poll sockOk upOk fuel i =
      ⟨PollOutcome.timeout, fuel, fuel, fuel⟩ := by
  intro fuel
  induction fuel with
  | zero => intro i; rfl
  | succ n ih =>
    intro i
    simp [bt_enable_poll, hs i, hu i, ih (i + 1)]

/-- If, starting from attempt index `i`, the first `m` bring-up attempts
fail, attempt `i + m` succeeds, and all sockets up to there are created,
the poll loop stops with exactly `m + 1` opens, `m + 1` bring-up
attempts and `m` sleeps. -/
theorem bt_enable_poll_success (sockOk upOk : Nat → Bool) :
    ∀ (m fuel i : Nat), m + 1 ≤ fuel →
      (∀ j, j < m → upOk (i + j) = false) → upOk (i + m) = true →
      (∀ j, j < m + 1 → sockOk (i + j) = true) →
      bt_enable_poll sockOk upOk fuel i =
        ⟨PollOutcome.success, m + 1, m + 1, m⟩ := by
  intro m
  induction m with
  | zero =>
    intro fuel i hf hu1 hu2 hsk
    match fuel, hf with
    | f + 1, _ =>
      have h1 : sockOk i = true := by simpa using hsk 0 (by omega)
      have h2 : upOk i = true := by simpa using hu2
      simp [bt_enable_poll, h1, h2]
  | succ n ih =>
    intro fuel i hf hu1 hu2 hsk
    match fuel, hf with
    | f + 1, hf =>
      have h1 : sockOk i = true := by simpa using hsk 0 (by omega)
      have h2 : upOk i = false := by simpa using hu1 0 (by omega)
      have hrec := ih f (i + 1) (by omega)
        (fun j hj => by
          have := hu1 (j + 1) (by omega)
          rwa [show i + (j + 1) = i + 1 + j by omega] at this)
        (by
          have := hu2
          rwa [show i + (n + 1) = i + 1 + n by omega] at this)
        (fun j hj => by
          have := hsk (j + 1) (by omega)
          rwa [show i + (j + 1) = i + 1 + j by omega] at this)
      simp [bt_enable_poll, h1, h2, hrec]

/-! ## Claims -/

/-- C1, counterexample: the claim says `isEnabled` returns `Disabled`
(`0`) for every power outcome other than `On`, but when the power read
yields `Unknown` (here: the byte `'X'`) `bt_is_enabled` returns the
power check's own `-1`, not `0`. -/
theorem claim_C1_counterexample :
    check_bluetooth_power ⟨true, ['X']⟩ ≠ 1 ∧
      (bt_is_enabled ⟨true, ['X']⟩ true (some 1)).ret ≠ 0 := by
  constructor <;> decide

/-- C1, amended: when the power check returns `0` (Off) or `-1`
(Unknown), `bt_is_enabled` returns that very value immediately —
`Disabled` for Off, the error/Unknown outcome `-1` for Unknown — and
creates no HCI socket and issues no ioctl. -/
theorem claim_C1 (e : FileReadEnv) (sockOk : Bool) (devinfo : Option Nat)
    (h : check_bluetooth_power e = -1 ∨ check_bluetooth_power e = 0) :
    bt_is_enabled e sockOk devinfo = ⟨check_bluetooth_power e, 0, 0⟩ := by
  simp [bt_is_enabled, bt_is_enabled_core, h]

/-- C1, witness: a power file reading `'N'` (Off) makes `bt_is_enabled`
return `0` with no socket and no ioctl. -/
theorem claim_C1_witness :
    (check_bluetooth_power ⟨true, ['N']⟩ = -1 ∨
      check_bluetooth_power ⟨true, ['N']⟩ = 0) ∧
    bt_is_enabled ⟨true, ['N']⟩ true none =
      ⟨check_bluetooth_power ⟨true, ['N']⟩, 0, 0⟩ :=
  ⟨Or.inr (by decide), claim_C1 ⟨true, ['N']⟩ true none (Or.inr (by decide))⟩

/-- C2: `bt_is_enabled` returns `1` (Enabled) iff the power check
returns `1` (On), the socket is created, and the `HCIGETDEVINFO` ioctl
succeeds with the `HCI_UP` bit set in the returned flags; and when power
is On and the info ioctl fails, it returns `0` (Disabled), not an
error. -/
theorem claim_C2 (e : FileReadEnv) (sockOk : Bool) (devinfo : Option Nat) :
    ((bt_is_enabled e sockOk devinfo).ret = 1 ↔
      check_bluetooth_power e = 1 ∧ sockOk = true ∧
        ∃ flags, devinfo = some flags ∧ hci_test_bit HCI_UP flags = 1) ∧
    (check_bluetooth_power e = 1 → sockOk = true → devinfo = none →
      (bt_is_enabled e sockOk devinfo).ret = 0) := by
  rcases check_bluetooth_power_mem e with h | h | h <;>
    cases sockOk <;>
    rcases devinfo with _ | flags <;>
      simp [bt_is_enabled, bt_is_enabled_core, h]

/-- C2, witness: with power byte `'Y'` and flags `3` (bit 0 set) the
result is `1`; with the same power but a failing info ioctl it is `0`. -/
theorem claim_C2_witness :
    (bt_is_enabled ⟨true, ['Y']⟩ true (some 3)).ret = 1 ∧
      (bt_is_enabled ⟨true, ['Y']⟩ true none).ret = 0 :=
  ⟨(claim_C2 ⟨true, ['Y']⟩ true (some 3)).1.mpr
      ⟨by decide, rfl, 3, rfl, by decide⟩,
   (claim_C2 ⟨true, ['Y']⟩ true none).2 (by decide) rfl rfl⟩

/-- C3: if power-on and the `hciattach` start succeed, socket creation
always succeeds but the `HCIDEVUP` ioctl never does, `bt_enable`
terminates after exactly 1000 attempts with the timeout failure (`-1`)
and never starts the `hcid` daemon. -/
theorem claim_C3 (e : EnableEnv)
    (hp : ¬ e.setPowerRet < 0) (ha : ¬ e.startAttachRet < 0)
    (hs : ∀ j, e.sockOk j = true) (hu : ∀ j, e.upOk j = false) :
    bt_enable e =
      ⟨-1, true, some ⟨PollOutcome.timeout, 1000, 1000, 1000⟩, false⟩ := by
  simp [bt_enable, hp, ha, bt_enable_poll_timeout e.sockOk e.upOk hs hu 1000 0]

/-- C3, witness: a channel whose bring-up never succeeds makes
`bt_enable` return the timeout failure after 1000 opens. -/
theorem claim_C3_witness :
    bt_enable ⟨0, 0, fun _ => true, fun _ => false, 0⟩ =
      ⟨-1, true, some ⟨PollOutcome.timeout, 1000, 1000, 1000⟩, false⟩ :=
  claim_C3 ⟨0, 0, fun _ => true, fun _ => false, 0⟩
    (by decide) (by decide) (fun _ => rfl) (fun _ => rfl)

/-- C4: if the first `k - 1` bring-up attempts fail and the `k`-th
succeeds (1 ≤ k ≤ 1000), with sockets available through attempt `k`,
then `bt_enable` leaves the poll loop with exactly `k` socket opens,
`k` bring-up ioctls and `k - 1` sleeps, and goes on to start the `hcid`
daemon. -/
theorem claim_C4 (e : EnableEnv) (k : Nat)
    (hk1 : 1 ≤ k) (hk2 : k ≤ 1000)
    (hp : ¬ e.setPowerRet < 0) (ha : ¬ e.startAttachRet < 0)
    (hu1 : ∀ j, j < k - 1 → e.upOk j = false) (hu2 : e.upOk (k - 1) = true)
    (hs : ∀ j, j < k → e.sockOk j = true) :
    (bt_enable e).poll = some ⟨PollOutcome.success, k, k, k - 1⟩ ∧
      (bt_enable e).mainStarted = true := by
  have hpoll : bt_enable_poll e.sockOk e.upOk 1000 0 =
      ⟨PollOutcome.success, k, k, k - 1⟩ := by
    have := bt_enable_poll_success e.sockOk e.upOk (k - 1) 1000 0
      (by omega)
      (fun j hj => by simpa using hu1 j hj)
      (by simpa using hu2)
      (fun j hj => by have := hs j (by omega); simpa using this)
    rwa [show k - 1 + 1 = k by omega] at this
  by_cases hm : e.startMainRet < 0 <;>
    simp [bt_enable, hp, ha, hpoll, hm]

/-- C4, witness: bring-up first succeeding on attempt 3 leaves the loop
after exactly 3 opens, 3 bring-up attempts and 2 sleeps, and the `hcid`
start is reached. -/
theorem claim_C4_witness :
    (bt_enable ⟨0, 0, fun _ => true, fun i => decide (i = 2), 0⟩).poll =
        some ⟨PollOutcome.success, 3, 3, 2⟩ ∧
      (bt_enable ⟨0, 0, fun _ => true, fun i => decide (i = 2), 0⟩).mainStarted
        = true :=
  claim_C4 ⟨0, 0, fun _ => true, fun i => decide (i = 2), 0⟩ 3
    (by omega) (by omega) (by decide) (by decide)
    (by decide) (by decide) (by decide)

/-- C5: `bt_enable` with a failing `set_bluetooth_power(1)` returns `-1`
before any `property_set` call and before any socket/poll activity; and
`bt_disable` with a failing `property_set("ctl.stop", "hcid")` returns
`-1` without creating a socket, issuing `HCIDEVDOWN`, stopping
`hciattach`, or touching the power rail. -/
theorem claim_C5 (e : EnableEnv) (d : DisableEnv)
    (he : e.setPowerRet < 0) (hd : d.stopMainRet < 0) :
    bt_enable e = ⟨-1, false, none, false⟩ ∧
      bt_disable d = ⟨-1, 0, false, false, false⟩ := by
  constructor
  · simp [bt_enable, he]
  · simp [bt_disable, hd]

/-- C5, witness: concrete failing first stages for both calls. -/
theorem claim_C5_witness :
    bt_enable ⟨-1, 0, fun _ => true, fun _ => true, 0⟩ =
        ⟨-1, false, none, false⟩ ∧
      bt_disable ⟨-1, true, 0, 0, 0⟩ = ⟨-1, 0, false, false, false⟩ :=
  claim_C5 ⟨-1, 0, fun _ => true, fun _ => true, 0⟩ ⟨-1, true, 0, 0, 0⟩
    (by decide) (by decide)

/-- C6: `bt_disable` never inspects the `HCIDEVDOWN` result — its whole
outcome is invariant under that value; when the earlier stop succeeded
and the socket opens, the bring-down is issued and the sequence proceeds
to stop `hciattach` (and, if that succeeds, to power off); but a socket
creation failure at that step aborts with `-1` before `hciattach` or the
power rail is touched. -/
theorem claim_C6 (d : DisableEnv) (r₁ r₂ : Int) :
    bt_disable ⟨d.stopMainRet, d.sockOk, r₁, d.stopAttachRet, d.setPowerRet⟩ =
      bt_disable ⟨d.stopMainRet, d.sockOk, r₂, d.stopAttachRet, d.setPowerRet⟩ ∧
    (¬ d.stopMainRet < 0 → d.sockOk = true →
      (bt_disable d).bringDownIssued = true ∧
      (bt_disable d).attachStopIssued = true ∧
      (¬ d.stopAttachRet < 0 → (bt_disable d).powerSetIssued = true)) ∧
    (¬ d.stopMainRet < 0 → d.sockOk = false →
      bt_disable d = ⟨-1, 1, false, false, false⟩) := by
  refine ⟨?_, ?_, ?_⟩
  · by_cases h1 : d.stopMainRet < 0 <;>
      by_cases h2 : d.sockOk <;>
        by_cases h3 : d.stopAttachRet < 0 <;>
          by_cases h4 : d.setPowerRet < 0 <;>
            simp [bt_disable, h1, h2, h3, h4]
  · intro h1 h2
    by_cases h3 : d.stopAttachRet < 0 <;>
      by_cases h4 : d.setPowerRet < 0 <;>
        simp [bt_disable, h1, h2, h3, h4]
  · intro h1 h2
    simp [bt_disable, h1, h2]

/-- C6, witness: the disable outcome is the same for a failing (`-7`)
and a succeeding (`0`) `HCIDEVDOWN`; with a failing socket it aborts
with nothing issued after the `hcid` stop. -/
theorem claim_C6_witness :
    bt_disable ⟨0, true, -7, 0, 0⟩ = bt_disable ⟨0, true, 0, 0, 0⟩ ∧
      (bt_disable ⟨0, true, -7, 0, 0⟩).attachStopIssued = true ∧
      bt_disable ⟨0, false, 0, 0, 0⟩ = ⟨-1, 1, false, false, false⟩ :=
  ⟨(claim_C6 ⟨0, true, 0, 0, 0⟩ (-7) 0).1,
   ((claim_C6 ⟨0, true, -7, 0, 0⟩ 0 0).2.1 (by decide) rfl).2.1,
   (claim_C6 ⟨0, false, 0, 0, 0⟩ 0 0).2.2 (by decide) rfl⟩

/-- C7, counterexample: the claim says `isEnabled` leaves all component
state unchanged even on a first call on a fresh rfkill backend, but a
first call resolves the binding: starting from the fresh globals
(`rfkill_id = -1`) with one bluetooth-typed slot, `bt_is_enabled_rfkill`
ends with `rfkill_id = 0` — the state changed. -/
theorem claim_C7_counterexample :
    rfkillFresh.rfkill_id = -1 ∧
    (bt_is_enabled_rfkill
        ⟨[some "bluetooth".toList], fun _ => some ['1'], fun _ => true,
          fun _ => 1⟩
        rfkillFresh true (some 1)).st.rfkill_id = 0 ∧
    (bt_is_enabled_rfkill
        ⟨[some "bluetooth".toList], fun _ => some ['1'], fun _ => true,
          fun _ => 1⟩
        rfkillFresh true (some 1)).st ≠ rfkillFresh := by
  refine ⟨rfl, by decide, by decide⟩

/-- C7, amended: once the rfkill binding is resolved (`rfkill_id ≠ -1`),
`bt_is_enabled` mutates nothing: the globals come out unchanged and no
slot scan is performed (the direct-file variant keeps no state at all,
so only the rfkill variant has state to preserve). -/
theorem claim_C7 (env : RfkillEnv) (st : RfkillState) (sockOk : Bool)
    (devinfo : Option Nat) (h : st.rfkill_id ≠ -1) :
    (bt_is_enabled_rfkill env st sockOk devinfo).st = st ∧
      (bt_is_enabled_rfkill env st sockOk devinfo).scans = 0 := by
  simp [bt_is_enabled_rfkill, check_bluetooth_power_rfkill, h]

/-- C7, witness: with the binding already resolved to slot 0, a call
leaves the globals unchanged and performs no scan. -/
theorem claim_C7_witness :
    (bt_is_enabled_rfkill
        ⟨[], fun _ => some ['1'], fun _ => true, fun _ => 1⟩
        ⟨0, some "/sys/class/rfkill/rfkill0/state"⟩ true (some 1)).st =
      ⟨0, some "/sys/class/rfkill/rfkill0/state"⟩ ∧
    (bt_is_enabled_rfkill
        ⟨[], fun _ => some ['1'], fun _ => true, fun _ => 1⟩
        ⟨0, some "/sys/class/rfkill/rfkill0/state"⟩ true (some 1)).scans = 0 :=
  claim_C7 ⟨[], fun _ => some ['1'], fun _ => true, fun _ => 1⟩
    ⟨0, some "/sys/class/rfkill/rfkill0/state"⟩ true (some 1) (by decide)

/-- C8: with slots `[wifi, bluetooth]` a fresh rfkill backend binds to
slot index 1 (first match in ascending order) with one scan; any call on
a resolved binding scans zero times and leaves it unchanged; and a
failed resolution is not cached: the globals stay unresolved, the call
fails with `-1`, and any call from an unresolved state scans again. -/
theorem claim_C8 (sr : String → Option (List Char)) (wo : String → Bool)
    (wr : String → Int) (pwr : Bool) :
    (set_bluetooth_power_rfkill pwr
        ⟨[some "wifi".toList, some "bluetooth".toList], sr, wo, wr⟩
        rfkillFresh).snd.fst =
      ⟨1, some "/sys/class/rfkill/rfkill1/state"⟩ ∧
    (set_bluetooth_power_rfkill pwr
        ⟨[some "wifi".toList, some "bluetooth".toList], sr, wo, wr⟩
        rfkillFresh).snd.snd = 1 ∧
    (∀ (env2 : RfkillEnv) (st : RfkillState), st.rfkill_id ≠ -1 →
      (set_bluetooth_power_rfkill pwr env2 st).snd.fst = st ∧
      (set_bluetooth_power_rfkill pwr env2 st).snd.snd = 0) ∧
    (∀ (env3 : RfkillEnv) (st : RfkillState), st.rfkill_id = -1 →
      init_rfkill_scan env3.slots 0 = none →
      (set_bluetooth_power_rfkill pwr env3 st).fst = -1 ∧
      (set_bluetooth_power_rfkill pwr env3 st).snd.fst = st ∧
      (set_bluetooth_power_rfkill pwr env3 st).snd.snd = 1) := by
  refine ⟨?_, ?_, ?_, ?_⟩
  · rfl
  · rfl
  · intro env2 st h
    simp [set_bluetooth_power_rfkill, h]
  · intro env3 st h hs
    simp [set_bluetooth_power_rfkill, h, init_rfkill, hs]

/-- C8, witness: the scenario instantiated, a second call on the
resolved binding with zero scans, and a fresh call on an empty slot list
scanning (and failing) again. -/
theorem claim_C8_witness :
    (set_bluetooth_power_rfkill true
        ⟨[some "wifi".toList, some "bluetooth".toList],
          fun _ => some ['1'], fun _ => true, fun _ => 1⟩
        rfkillFresh).snd.fst =
      ⟨1, some "/sys/class/rfkill/rfkill1/state"⟩ ∧
    (set_bluetooth_power_rfkill true
        ⟨[], fun _ => none, fun _ => true, fun _ => 1⟩
        ⟨1, some "/sys/class/rfkill/rfkill1/state"⟩).snd.snd = 0 ∧
    (set_bluetooth_power_rfkill true
        ⟨[], fun _ => none, fun _ => true, fun _ => 1⟩
        rfkillFresh).snd.snd = 1 := by
  have h := claim_C8 (fun _ => some ['1']) (fun _ => true) (fun _ => 1) true
  exact ⟨h.1,
    (h.2.2.1 ⟨[], fun _ => none, fun _ => true, fun _ => 1⟩
      ⟨1, some "/sys/class/rfkill/rfkill1/state"⟩ (by decide)).2,
    (h.2.2.2 ⟨[], fun _ => none, fun _ => true, fun _ => 1⟩
      rfkillFresh (by decide) (by decide)).2.2⟩

/-- C9, counterexample: the claim says both backends report failure on a
short write, but the rfkill `set_bluetooth_power` only checks
`write < 0`: with a resolved binding and a `write` that transfers `0`
of the 1 expected bytes, it returns `0` (success). -/
theorem claim_C9_counterexample :
    (set_bluetooth_power_rfkill true
        ⟨[], fun _ => none, fun _ => true, fun _ => 0⟩
        ⟨0, some (rfkill_state_path_for 0)⟩).fst = 0 := by
  decide

/-- C9, amended: the direct-file `set_bluetooth_power` succeeds exactly
when the open succeeds and the write returns exactly 1 (so open failure
and any short write fail); the rfkill variant succeeds exactly when the
open succeeds and the write returns a non-negative count — only a
negative return fails, a 0-byte short write passes. -/
theorem claim_C9 (pwr : Bool) (e : FileWriteEnv) (env : RfkillEnv)
    (st : RfkillState) (p : String)
    (h1 : st.rfkill_id ≠ -1) (h2 : st.rfkill_state_path = some p) :
    (set_bluetooth_power pwr e = 0 ↔
      e.writeOpenOk = true ∧ e.writeRet = 1) ∧
    ((set_bluetooth_power_rfkill pwr env st).fst = 0 ↔
      env.stateWriteOpenOk p = true ∧ 0 ≤ env.stateWriteRet p) := by
  constructor
  · by_cases ho : e.writeOpenOk <;> by_cases hw : e.writeRet = 1 <;>
      simp [set_bluetooth_power, ho, hw]
  · by_cases ho : env.stateWriteOpenOk p <;>
      by_cases hw : env.stateWriteRet p < 0 <;>
        simp [set_bluetooth_power_rfkill, rfkill_set_body, h1, h2, ho, hw] <;>
        omega

/-- C9, witness: a 1-byte direct write succeeds; a 0-byte rfkill write
also succeeds (the amended rfkill condition at `writeRet = 0`). -/
theorem claim_C9_witness :
    set_bluetooth_power true ⟨true, 1⟩ = 0 ∧
      (set_bluetooth_power_rfkill true
          ⟨[], fun _ => none, fun _ => true, fun _ => 0⟩
          ⟨0, some (rfkill_state_path_for 0)⟩).fst = 0 :=
  ⟨(claim_C9 true ⟨true, 1⟩
      ⟨[], fun _ => none, fun _ => true, fun _ => 0⟩
      ⟨0, some (rfkill_state_path_for 0)⟩ (rfkill_state_path_for 0)
      (by decide) rfl).1.mpr ⟨rfl, rfl⟩,
   (claim_C9 true ⟨true, 1⟩
      ⟨[], fun _ => none, fun _ => true, fun _ => 0⟩
      ⟨0, some (rfkill_state_path_for 0)⟩ (rfkill_state_path_for 0)
      (by decide) rfl).2.mpr ⟨rfl, by decide⟩⟩

/-- C10: when power is On but `create_hci_sock` fails, `bt_is_enabled`
returns `-1` — distinct from the `0` (Disabled) that a failing
`HCIGETDEVINFO` produces, so the caller can tell the two apart. -/
theorem claim_C10 (e : FileReadEnv) (devinfo : Option Nat)
    (h : check_bluetooth_power e = 1) :
    (bt_is_enabled e false devinfo).ret = -1 ∧
      (bt_is_enabled e false devinfo).ret ≠ 0 ∧
      (bt_is_enabled e true none).ret = 0 := by
  simp [bt_is_enabled, bt_is_enabled_core, h]

/-- C10, witness: power byte `'Y'`, socket failure gives `-1`; same
power with a failing info ioctl gives `0`. -/
theorem claim_C10_witness :
    (bt_is_enabled ⟨true, ['Y']⟩ false none).ret = -1 ∧
      (bt_is_enabled ⟨true, ['Y']⟩ false none).ret ≠ 0 ∧
      (bt_is_enabled ⟨true, ['Y']⟩ true none).ret = 0 :=
  claim_C10 ⟨true, ['Y']⟩ none (by decide)

end Bluedroid
